import Mathlib

/-!
Shallow embedding of `src/main.py` of the POSTECH GenAI OpenAI bridge.

The program is a FastAPI process translating OpenAI-style chat-completion
requests into calls against the POSTECH generative-AI backend.  The
embedding below models its pure data transformations directly and its
effects (HTTP transport, the clock, `uuid4`, the filesystem) as explicit
parameters: the backend transport is an oracle function, the clock and the
generated uuids are inputs, and the file registry plus the tmp directory
are an explicit state value threaded through the handlers.
-/

set_option autoImplicit false

namespace Bridge

/-- A JSON value, as produced by Python's `json.loads` / consumed by
`json.dumps`.  Numeric literals keep their source text: no claim depends
on numeric values beyond truthiness. -/
inductive Json where
  | null : Json
  | bool (b : Bool) : Json
  | num (lit : String) : Json
  | str (s : String) : Json
  | arr (xs : List Json) : Json
  | obj (kvs : List (String × Json)) : Json
  deriving Repr

/-- `pydantic` `Message` model (`class Message(BaseModel)`), line 35. -/
structure Message where
  role : String
  content : String
  deriving Repr, DecidableEq

/-- `MODEL_ENDPOINTS`, line 26: logical model name → backend route. -/
def MODEL_ENDPOINTS : List (String × String) :=
  [("postech-gpt", "a1/gpt"), ("postech-gemini", "a2/gemini"), ("postech-claude", "a3/claude")]

/-- `DEFAULT_MODEL`, line 31. -/
def DEFAULT_MODEL : String := "postech-gpt"

/-- Python `dict` lookup on an association list (first binding wins,
matching insertion-unique keys of a Python dict). -/
def alistGet {α : Type} (kvs : List (String × α)) (k : String) : Option α :=
  (kvs.find? (fun kv => kv.1 == k)).map (fun kv => kv.2)

/-- `convert_messages_to_prompt`, lines 99–104: builds the `lines` list by
appending in loop order, then joins with a single newline. -/
def convert_messages_to_prompt (messages : List Message) : String :=
  let lines := messages.foldl (fun acc msg => acc ++ [msg.role.toUpper ++ ": " ++ msg.content]) []
  String.intercalate "\n" lines

/-- The spec's description of the transcoder (§4.2): per-message line
`"<ROLE_UPPERCASED>: <content>"`, joined with `"\n"`. -/
def specToPrompt (messages : List Message) : String :=
  String.intercalate "\n" (messages.map (fun m => m.role.toUpper ++ ": " ++ m.content))

/-- The Python exceptions the handler can observe.  `jsonDecodeError` and
`typeError` are caught by the multipart branch (line 211); pydantic's
`ValidationError` and `AttributeError` are caught nowhere; every
`requests.RequestException` (transport errors, timeouts, and the
`HTTPError` of `raise_for_status`) is caught at line 241. -/
inductive PyError where
  | jsonDecodeError (msg : String)
  | typeError (msg : String)
  | validationError (msg : String)
  | attributeError (msg : String)
  | requestException (msg : String)
  deriving Repr, DecidableEq

/-- The `str()` text of the exception, as interpolated into f-strings. -/
def PyError.msg : PyError → String
  | .jsonDecodeError m => m
  | .typeError m => m
  | .validationError m => m
  | .attributeError m => m
  | .requestException m => m

/-! ### `json.loads` (Python stdlib, used at lines 210 and 217)

A recursive-descent JSON parser over the character list, with a fuel
argument for termination.  `\uXXXX` escapes are mapped to the scalar value
(surrogate halves are rejected — Lean `Char` holds scalar values only; no
claim exercises them).  Error messages are abridged relative to CPython's. -/

def jsonWs (c : Char) : Bool :=
  match c with
  | ' ' | '\t' | '\n' | '\r' => true
  | _ => false

def skipWs (cs : List Char) : List Char := cs.dropWhile jsonWs

def isDigitCh (c : Char) : Bool := '0' ≤ c && c ≤ '9'

def hexVal (c : Char) : Option Nat :=
  let n := c.toNat
  if 48 ≤ n && n ≤ 57 then some (n - 48)
  else if 97 ≤ n && n ≤ 102 then some (n - 87)
  else if 65 ≤ n && n ≤ 70 then some (n - 55)
  else none

/-- Parse the body of a JSON string after the opening quote; returns the
decoded characters and the remainder after the closing quote. -/
def parseJString : List Char → Option (List Char × List Char)
  | [] => none
  | '"' :: rest => some ([], rest)
  | '\\' :: esc =>
    match esc with
    | '"' :: r => (parseJString r).map (fun p => ('"' :: p.1, p.2))
    | '\\' :: r => (parseJString r).map (fun p => ('\\' :: p.1, p.2))
    | '/' :: r => (parseJString r).map (fun p => ('/' :: p.1, p.2))
    | 'b' :: r => (parseJString r).map (fun p => (Char.ofNat 8 :: p.1, p.2))
    | 'f' :: r => (parseJString r).map (fun p => (Char.ofNat 12 :: p.1, p.2))
    | 'n' :: r => (parseJString r).map (fun p => ('\n' :: p.1, p.2))
    | 'r' :: r => (parseJString r).map (fun p => ('\r' :: p.1, p.2))
    | 't' :: r => (parseJString r).map (fun p => ('\t' :: p.1, p.2))
    | 'u' :: h1 :: h2 :: h3 :: h4 :: r =>
      match hexVal h1, hexVal h2, hexVal h3, hexVal h4 with
      | some a, some b, some c, some d =>
        let n := ((a * 16 + b) * 16 + c) * 16 + d
        if 0xd800 ≤ n && n ≤ 0xdfff then none
        else (parseJString r).map (fun p => (Char.ofNat n :: p.1, p.2))
      | _, _, _, _ => none
    | _ => none
  | c :: rest =>
    if c.toNat < 0x20 then none
    else (parseJString rest).map (fun p => (c :: p.1, p.2))

/-- Characters that may occur in a JSON number token. -/
def numTokCh (c : Char) : Bool :=
  isDigitCh c || c == '-' || c == '+' || c == '.' || c == 'e' || c == 'E'

/-- Parse a numeric literal (kept as its source text).  Slightly more
lenient than CPython's grammar; all claim inputs are plain integers. -/
def parseNumLit (cs : List Char) : Option (String × List Char) :=
  let tok := cs.takeWhile numTokCh
  let rest := cs.dropWhile numTokCh
  match tok with
  | [] => none
  | c :: _ =>
    if (c == '-' || isDigitCh c) && tok.any isDigitCh then
      some (String.mk tok, rest)
    else none

mutual

def parseValue : Nat → List Char → Except String (Json × List Char)
  | 0, _ => .error "Expecting value"
  | Nat.succ fuel, cs =>
    match skipWs cs with
    | [] => .error "Expecting value"
    | 'n' :: 'u' :: 'l' :: 'l' :: rest => .ok (.null, rest)
    | 't' :: 'r' :: 'u' :: 'e' :: rest => .ok (.bool true, rest)
    | 'f' :: 'a' :: 'l' :: 's' :: 'e' :: rest => .ok (.bool false, rest)
    | '"' :: rest =>
      match parseJString rest with
      | some (content, rest') => .ok (.str (String.mk content), rest')
      | none => .error "Unterminated string starting at"
    | '[' :: rest =>
      match skipWs rest with
      | ']' :: r => .ok (.arr [], r)
      | r => parseArrItems fuel r []
    | '{' :: rest =>
      match skipWs rest with
      | '}' :: r => .ok (.obj [], r)
      | r => parseObjItems fuel r []
    | c :: rest =>
      match parseNumLit (c :: rest) with
      | some (lit, rest') => .ok (.num lit, rest')
      | none => .error "Expecting value"

def parseArrItems : Nat → List Char → List Json → Except String (Json × List Char)
  | 0, _, _ => .error "Expecting value"
  | Nat.succ fuel, cs, acc =>
    match parseValue fuel cs with
    | .error m => .error m
    | .ok (v, rest) =>
      match skipWs rest with
      | ',' :: r => parseArrItems fuel r (acc ++ [v])
      | ']' :: r => .ok (.arr (acc ++ [v]), r)
      | _ => .error "Expecting \x27,\x27 delimiter"

def parseObjItems : Nat → List Char → List (String × Json) → Except String (Json × List Char)
  | 0, _, _ => .error "Expecting value"
  | Nat.succ fuel, cs, acc =>
    match skipWs cs with
    | '"' :: rest =>
      match parseJString rest with
      | none => .error "Unterminated string starting at"
      | some (key, rest') =>
        match skipWs rest' with
        | ':' :: r =>
          match parseValue fuel r with
          | .error m => .error m
          | .ok (v, rest2) =>
            match skipWs rest2 with
            | ',' :: r2 => parseObjItems fuel r2 (acc ++ [(String.mk key, v)])
            | '}' :: r2 => .ok (.obj (acc ++ [(String.mk key, v)]), r2)
            | _ => .error "Expecting \x27,\x27 delimiter"
        | _ => .error "Expecting \x27:\x27 delimiter"
    | _ => .error "Expecting property name enclosed in double quotes"

end

/-- Python `json.loads`: parse, then reject trailing non-whitespace. -/
def json_loads (s : String) : Except String Json :=
  match parseValue (2 * s.length + 8) s.data with
  | .error m => .error m
  | .ok (v, rest) => if (skipWs rest).isEmpty then .ok v else .error "Extra data"

/-! ### `json.dumps` (Python stdlib, used at lines 171 and 187)

Default options: separators `", "` / `": "`, `ensure_ascii=True` (every
non-ASCII or control character appears as a `\uXXXX` escape, astral
characters as a surrogate pair). -/

/-- Lower-case 4-digit hex rendering of `n % 0x10000`. -/
def hex4 (n : Nat) : String :=
  let d := fun (k : Nat) =>
    if k < 10 then Char.ofNat ('0'.toNat + k) else Char.ofNat ('a'.toNat + k - 10)
  String.mk [d (n / 4096 % 16), d (n / 256 % 16), d (n / 16 % 16), d (n % 16)]

def pyJsonEscape (c : Char) : String :=
  if c = '"' then "\\\""
  else if c = '\\' then "\\\\"
  else if c = '\n' then "\\n"
  else if c = '\t' then "\\t"
  else if c = '\r' then "\\r"
  else if c.toNat == 8 then "\\b"
  else if c.toNat == 12 then "\\f"
  else if c.toNat < 0x20 then "\\u" ++ hex4 c.toNat
  else if c.toNat < 0x7f then String.singleton c
  else if c.toNat < 0x10000 then "\\u" ++ hex4 c.toNat
  else
    let v := c.toNat - 0x10000
    "\\u" ++ hex4 (0xd800 + v / 0x400) ++ "\\u" ++ hex4 (0xdc00 + v % 0x400)

def pyJsonQuote (s : String) : String :=
  "\"" ++ String.join (s.data.map pyJsonEscape) ++ "\""

mutual

def pyJsonDumps : Json → String
  | .null => "null"
  | .bool true => "true"
  | .bool false => "false"
  | .num lit => lit
  | .str s => pyJsonQuote s
  | .arr xs => "[" ++ dumpsArrItems xs ++ "]"
  | .obj kvs => "\x7b" ++ dumpsObjItems kvs ++ "\x7d"

def dumpsArrItems : List Json → String
  | [] => ""
  | [x] => pyJsonDumps x
  | x :: y :: rest => pyJsonDumps x ++ ", " ++ dumpsArrItems (y :: rest)

def dumpsObjItems : List (String × Json) → String
  | [] => ""
  | [(k, v)] => pyJsonQuote k ++ ": " ++ pyJsonDumps v
  | (k, v) :: kv :: rest => pyJsonQuote k ++ ": " ++ pyJsonDumps v ++ ", " ++ dumpsObjItems (kv :: rest)

end

/-! ### Python `str()` / `repr()` on parsed-JSON values

Used only to render the `Invalid model: {model}` detail string (line 226).
`repr`'s escaping of special characters inside string literals is elided —
no claim exercises it. -/

/-- The value of a decimal digit run. -/
def digitsVal (ds : List Char) : Nat :=
  ds.foldl (fun a c => 10 * a + (c.toNat - 48)) 0

/-- Python `str()` of a number parsed from JSON.  Exact for integer
literals (`json.loads` yields an `int` and `str` round-trips it, with
`-0` printed `0`); a float literal is kept verbatim — `str(float)` is the
shortest-round-trip rendering of an IEEE double, which is out of scope
here, and no theorem asserts detail text containing a float model. -/
def pyNumStr (lit : String) : String :=
  if lit.data.any (fun c => c == '.' || c == 'e' || c == 'E') then lit
  else
    match lit.data with
    | '-' :: ds => if digitsVal ds == 0 then "0" else "-" ++ toString (digitsVal ds)
    | ds => toString (digitsVal ds)

mutual

def pyRepr : Json → String
  | .null => "None"
  | .bool true => "True"
  | .bool false => "False"
  | .num lit => pyNumStr lit
  | .str s => "\x27" ++ s ++ "\x27"
  | .arr xs => "[" ++ pyReprItems xs ++ "]"
  | .obj kvs => "\x7b" ++ pyReprObjItems kvs ++ "\x7d"

def pyReprItems : List Json → String
  | [] => ""
  | [x] => pyRepr x
  | x :: y :: rest => pyRepr x ++ ", " ++ pyReprItems (y :: rest)

def pyReprObjItems : List (String × Json) → String
  | [] => ""
  | [(k, v)] => "\x27" ++ k ++ "\x27: " ++ pyRepr v
  | (k, v) :: kv :: rest => "\x27" ++ k ++ "\x27: " ++ pyRepr v ++ ", " ++ pyReprObjItems (kv :: rest)

end

def pyStr (j : Json) : String :=
  match j with
  | .str s => s
  | _ => pyRepr j

/-- Python truthiness of a parsed-JSON value (`if is_stream:`, line 247;
`body.get("stream", False)`, line 220).  A number is truthy iff nonzero,
i.e. iff its mantissa has a nonzero digit. -/
def pyTruthy (j : Json) : Bool :=
  match j with
  | .null => false
  | .bool b => b
  | .str s => !(s == "")
  | .num lit =>
    (lit.data.takeWhile (fun c => !(c == 'e') && !(c == 'E'))).any
      (fun c => '1' ≤ c && c ≤ '9')
  | .arr xs => !xs.isEmpty
  | .obj kvs => !kvs.isEmpty

/-- Python `for m in x` over a parsed-JSON value: lists yield elements,
dicts yield their keys, strings yield their characters, everything else
raises `TypeError`. -/
def pyIterate (j : Json) : Except PyError (List Json) :=
  match j with
  | .arr xs => .ok xs
  | .obj kvs => .ok (kvs.map (fun kv => Json.str kv.1))
  | .str s => .ok (s.data.map (fun c => Json.str (String.singleton c)))
  | _ => .error (.typeError "object is not iterable")

/-- `Message(**m)` (pydantic v2): `m` must be a mapping or the `**`
splat raises `TypeError`; both `role` and `content` must be present and be
strings or pydantic raises `ValidationError` (extra keys are ignored,
non-string values are not coerced to `str` in lax mode). -/
def messageOfJson (j : Json) : Except PyError Message :=
  match j with
  | .obj kvs =>
    match alistGet kvs "role", alistGet kvs "content" with
    | some (.str r), some (.str c) => .ok ⟨r, c⟩
    | _, _ => .error (.validationError "validation error for Message")
  | _ => .error (.typeError "argument after ** must be a mapping")

/-- `[Message(**m) for m in json.loads(messages)]` (line 210), as a
fallible computation: `json.loads` failure is a `JSONDecodeError`, the
comprehension may raise `TypeError` or `ValidationError`. -/
def parse_form_messages (s : String) : Except PyError (List Message) :=
  match json_loads s with
  | .error m => .error (.jsonDecodeError m)
  | .ok j =>
    match pyIterate j with
    | .error e => .error e
    | .ok items => items.mapM messageOfJson

/-- Python `x or default` on an optional string (`model or DEFAULT_MODEL`,
line 213; `file.filename or "file"`, line 145): `None` and `""` are falsy. -/
def pyStrOr (o : Option String) (dflt : String) : String :=
  match o with
  | some s => if s == "" then dflt else s
  | none => dflt

/-- Python `str.lower` (`stream.lower()`, line 214), as a per-character
map (ASCII-faithful). -/
def pyLower (s : String) : String := String.mk (s.data.map Char.toLower)

/-! ### Configuration (lines 19–23) — modelled at their defaults. -/

def POSTECH_BASE_URL : String := "https://genai.postech.ac.kr/agent/api"

def PROXY_HOST : String := "http://localhost:8080"

def TMP_DIR : String := "./tmp"

/-- `class FileInfo(BaseModel)`, line 46. -/
structure FileInfo where
  id : String
  name : String
  url : String
  deriving Repr, DecidableEq

/-- The JSON body POSTed to the backend, lines 110–114. -/
structure PostechPayload where
  message : String
  stream : Bool
  files : List FileInfo
  deriving Repr, DecidableEq

/-- One outbound backend request (url and payload), as observed by the
transport. -/
structure BackendCall where
  url : String
  payload : PostechPayload
  deriving Repr, DecidableEq

/-- What `requests.post(url, json=payload, ...)` can come back with: a
response (any status) or a raised `RequestException` (connection failure,
timeout). -/
inductive TransportOutcome where
  | resp (status : Nat) (body : Json)
  | requestError (msg : String)

/-- The transport oracle: the network's answer to each possible request. -/
def Transport : Type := String → PostechPayload → TransportOutcome

/-- The request `call_postech_api` sends, lines 108–121: url from the
route table entry, payload `{message, stream: False, files}`
(`[f.model_dump() for f in files]` is the very record list). -/
def postech_request (endpoint : String) (prompt : String) (files : List FileInfo) : BackendCall :=
  ⟨POSTECH_BASE_URL ++ "/" ++ endpoint, ⟨prompt, false, files⟩⟩

/-- `call_postech_api`, lines 107–125.  `raise_for_status` turns any
status ≥ 400 into an `HTTPError` (a `RequestException`); otherwise the
reply is `data.get("replies", "")` — `AttributeError` if the parsed body
is not a dict. -/
def call_postech_api (transport : Transport) (endpoint : String) (prompt : String)
    (files : List FileInfo) : Except PyError Json :=
  let req := postech_request endpoint prompt files
  match transport req.url req.payload with
  | .requestError m => .error (.requestException m)
  | .resp status body =>
    if 400 ≤ status then
      .error (.requestException (toString status ++ " Error for url: " ++ req.url))
    else
      match body with
      | .obj kvs => .ok ((alistGet kvs "replies").getD (.str ""))
      | _ => .error (.attributeError "object has no attribute \x27get\x27")

/-! ### Synthetic streaming, `generate_stream_response` (lines 150–190) -/

/-- The first chunk dict (lines 155–170): the whole reply as one
assistant-role content delta, `finish_reason` null. -/
def mkContentChunk (completion_id : String) (created : Int) (model : String) (reply : Json) : Json :=
  .obj [("id", .str completion_id), ("object", .str "chat.completion.chunk"),
        ("created", .num (toString created)), ("model", .str model),
        ("choices", .arr [.obj [("index", .num "0"),
          ("delta", .obj [("role", .str "assistant"), ("content", reply)]),
          ("finish_reason", .null)]])]

/-- The finish chunk dict (lines 174–186): empty delta, finish "stop". -/
def mkFinishChunk (completion_id : String) (created : Int) (model : String) : Json :=
  .obj [("id", .str completion_id), ("object", .str "chat.completion.chunk"),
        ("created", .num (toString created)), ("model", .str model),
        ("choices", .arr [.obj [("index", .num "0"),
          ("delta", .obj []),
          ("finish_reason", .str "stop")]])]

/-- `generate_stream_response`: `created = int(time.time())` is captured
once at the start and shared by both chunks; three frames are yielded. -/
def generate_stream_response (reply : Json) (model : String) (completion_id : String)
    (created : Int) : List String :=
  ["data: " ++ pyJsonDumps (mkContentChunk completion_id created model reply) ++ "\n\n",
   "data: " ++ pyJsonDumps (mkFinishChunk completion_id created model) ++ "\n\n",
   "data: [DONE]\n\n"]

/-- The non-streaming completion dict, lines 258–273. -/
def mkCompletion (completion_id : String) (created : Int) (model : String) (reply : Json) : Json :=
  .obj [("id", .str completion_id), ("object", .str "chat.completion"),
        ("created", .num (toString created)), ("model", .str model),
        ("choices", .arr [.obj [("index", .num "0"),
          ("message", .obj [("role", .str "assistant"), ("content", reply)]),
          ("finish_reason", .str "stop")]])]

/-! ### Accessors over response JSON (for stating claims) -/

def jfield (j : Json) (k : String) : Option Json :=
  match j with
  | .obj kvs => alistGet kvs k
  | _ => none

def jchoices (j : Json) : List Json :=
  match jfield j "choices" with
  | some (.arr xs) => xs
  | _ => []

def choiceDeltaContent (c : Json) : String :=
  match (jfield c "delta").bind (fun d => jfield d "content") with
  | some (.str s) => s
  | _ => ""

def concatStrs : List String → String
  | [] => ""
  | [s] => s
  | s :: t :: rest => s ++ concatStrs (t :: rest)

/-- Concatenation of the content deltas of a chunk's choices. -/
def chunkDeltaContent (j : Json) : String :=
  concatStrs ((jchoices j).map choiceDeltaContent)

def choiceFinishReason (j : Json) : Option Json :=
  (jchoices j).head?.bind (fun c => jfield c "finish_reason")

def choiceDeltaRole (j : Json) : Option Json :=
  (jchoices j).head?.bind (fun c => (jfield c "delta").bind (fun d => jfield d "role"))

def choiceDelta (j : Json) : Option Json :=
  (jchoices j).head?.bind (fun c => jfield c "delta")

def choiceMessageField (j : Json) (k : String) : Option Json :=
  (jchoices j).head?.bind (fun c => (jfield c "message").bind (fun m => jfield m k))

def choiceMessageFinish (j : Json) : Option Json :=
  (jchoices j).head?.bind (fun c => jfield c "finish_reason")

/-! ### File registry (lines 52–96 and 128–147)

`stored_files` is the in-memory registry; the tmp directory is modelled as
a path-indexed byte store (`disk`).  Fresh `uuid4` values are inputs. -/

/-- One inbound multipart upload: FastAPI's `UploadFile` (its filename may
be absent) and its raw bytes. -/
structure UploadedFile where
  filename : Option String
  content : List Nat
  deriving Repr, DecidableEq

/-- One `stored_files` registry entry (lines 74–78). -/
structure StoredFile where
  id : String
  name : Option String
  path : String
  deriving Repr, DecidableEq

/-- The process's mutable state: the `stored_files` dict and the bytes
written under `./tmp`. -/
structure BridgeState where
  stored_files : List (String × StoredFile)
  disk : List (String × List Nat)
  deriving Repr, DecidableEq

/-- `POST /v1/files` response body, lines 80–84. -/
structure UploadResponse where
  id : String
  name : Option String
  url : String
  deriving Repr, DecidableEq

/-- `upload_file`, lines 65–84: write the bytes under `./tmp/<uuid>`,
register the record, return `{id, name, url}`. -/
def upload_file (file_uuid : String) (st : BridgeState) (file : UploadedFile) :
    UploadResponse × BridgeState :=
  let file_id := file_uuid
  let file_path := TMP_DIR ++ "/" ++ file_id
  let st1 : BridgeState :=
    ⟨(file_id, ⟨file_id, file.filename, file_path⟩) :: st.stored_files,
     (file_path, file.content) :: st.disk⟩
  (⟨file_id, file.filename, PROXY_HOST ++ "/files/" ++ file_id⟩, st1)

/-- The `FileResponse(path=..., filename=...)` value, lines 93–96. -/
structure FileResp where
  path : String
  filename : Option String
  deriving Repr, DecidableEq

/-- `get_file`, lines 87–96: 404 when the id is not registered, else a
`FileResponse` serving the stored path under the original filename.  Pure
read — the state is untouched. -/
def get_file (st : BridgeState) (file_id : String) : Except (Nat × String) FileResp :=
  match alistGet st.stored_files file_id with
  | none => .error (404, "File not found")
  | some info => .ok ⟨info.path, info.name⟩

/-- The bytes `FileResponse` serves: the disk content at the path. -/
def served_bytes (st : BridgeState) (r : FileResp) : Option (List Nat) :=
  alistGet st.disk r.path

/-- `save_uploaded_file`, lines 128–147: same persistence as
`upload_file`, but returns a `FileInfo` for the backend payload
(`file.filename or "file"`). -/
def save_uploaded_file (file_uuid : String) (st : BridgeState) (file : UploadedFile) :
    FileInfo × BridgeState :=
  let file_id := file_uuid
  let file_path := TMP_DIR ++ "/" ++ file_id
  let st1 : BridgeState :=
    ⟨(file_id, ⟨file_id, file.filename, file_path⟩) :: st.stored_files,
     (file_path, file.content) :: st.disk⟩
  (⟨file_id, pyStrOr file.filename "file", PROXY_HOST ++ "/files/" ++ file_id⟩, st1)

/-! ### `POST /v1/chat/completions` (lines 193–273) -/

/-- The FastAPI form/file parameters of the handler (lines 196–199); all
`None` when the request is not multipart. -/
structure MultipartForm where
  model : Option String
  messages : Option String
  stream : Option String
  file : Option UploadedFile

/-- One inbound request as the handler sees it: the content-type header,
the form parameters, and the value `await request.json()` would produce
(consulted only on the non-multipart branch). -/
structure WireRequest where
  contentType : String
  form : MultipartForm
  body : Json

/-- Boolean `needle`-in-`haystack` on character lists. -/
def listPrefixB : List Char → List Char → Bool
  | [], _ => true
  | t :: ts, u :: us => if t == u then listPrefixB ts us else false
  | _, _ => false

def listContainsB (needle : List Char) : List Char → Bool
  | [] => needle.isEmpty
  | c :: rest => listPrefixB needle (c :: rest) || listContainsB needle rest

/-- `"multipart/form-data" in content_type` (line 205). -/
def isMultipartCT (ct : String) : Bool :=
  listContainsB "multipart/form-data".data ct.data

/-- The handler's effect sources: the transport oracle, the `uuid4` drawn
by a file save, the `uuid4().hex` drawn for the completion id, and the
clock value `int(time.time())`. -/
structure ChatEnv where
  transport : Transport
  file_uuid : String
  completion_uuid_hex : String
  now : Int

/-- Python slice `s[:n]` (used on `uuid4().hex`, line 244). -/
def pySlice (s : String) (n : Nat) : String := String.mk (s.data.take n)

/-- What the parsing phase of the handler produces: the message list, the
model value about to be validated, and the effective stream flag. -/
structure ParsedChat where
  msgs : List Message
  modelV : Json
  is_stream : Bool

/-- An aborted request: an `HTTPException` (status, detail) deliberately
raised, or an uncaught Python exception (rendered as a 500 by FastAPI). -/
inductive Abort where
  | http (status : Nat) (detail : String)
  | exn (e : PyError)
  deriving Repr, DecidableEq

/-- The truthiness of `stream and stream.lower() == "true"` (line 214). -/
def isStreamForm (o : Option String) : Bool :=
  match o with
  | none => false
  | some t => !(t == "") && (pyLower t == "true")

/-- Request parsing, lines 201–220.  Multipart: `messages` is required
(`if not messages` — `None` and `""` both fail), then
`[Message(**m) for m in json.loads(messages)]` with `JSONDecodeError` and
`TypeError` caught as a 400 and anything else escaping; `model` defaults
when falsy.  JSON: `model`/`messages`/`stream` are read off the decoded
object with defaults, nothing is caught. -/
def parse_chat_request (req : WireRequest) : Except Abort ParsedChat :=
  if isMultipartCT req.contentType then
    match req.form.messages with
    | none => .error (.http 400 "messages field is required")
    | some s =>
      if s == "" then .error (.http 400 "messages field is required")
      else
        match parse_form_messages s with
        | .error (.jsonDecodeError m) => .error (.http 400 ("Invalid messages format: " ++ m))
        | .error (.typeError m) => .error (.http 400 ("Invalid messages format: " ++ m))
        | .error e => .error (.exn e)
        | .ok msgs => .ok ⟨msgs, .str (pyStrOr req.form.model DEFAULT_MODEL), isStreamForm req.form.stream⟩
  else
    match req.body with
    | .obj kvs =>
      match pyIterate ((alistGet kvs "messages").getD (.arr [])) with
      | .error e => .error (.exn e)
      | .ok items =>
        match items.mapM messageOfJson with
        | .error e => .error (.exn e)
        | .ok msgs =>
          .ok ⟨msgs, (alistGet kvs "model").getD (.str DEFAULT_MODEL),
               pyTruthy ((alistGet kvs "stream").getD (.bool false))⟩
    | _ => .error (.exn (.attributeError "object has no attribute \x27get\x27"))

/-- The model names of the routing table, `list(MODEL_ENDPOINTS.keys())`. -/
def modelKeyStrs : List String := MODEL_ENDPOINTS.map (fun kv => kv.1)

/-- `f"Invalid model: {model}. Available: {list(MODEL_ENDPOINTS.keys())}"`. -/
def invalidModelDetail (m : Json) : String :=
  "Invalid model: " ++ pyStr m ++ ". Available: " ++ pyRepr (.arr (modelKeyStrs.map Json.str))

/-- Is the resolved model value a key of `MODEL_ENDPOINTS`
(`model not in MODEL_ENDPOINTS`, line 223)?  Only a string can be a key
of the table; for a hashable non-string the membership test is `False`
and for a list/dict it raises (see `validate_model`). -/
def modelInTable (m : Json) : Bool :=
  match m with
  | .str s => (alistGet MODEL_ENDPOINTS s).isSome
  | _ => false

/-- Is the parsed-JSON value hashable in Python?  `x in some_dict`
requires a hashable `x`; lists and dicts raise
`TypeError: unhashable type`. -/
def pyHashable (m : Json) : Bool :=
  match m with
  | .arr _ => false
  | .obj _ => false
  | _ => true

/-- Model validation, lines 222–227.  The membership test
`model not in MODEL_ENDPOINTS` itself raises an uncaught `TypeError` when
the model value is unhashable (a JSON list or object); every hashable
non-key value takes the `HTTPException(400)` branch. -/
def validate_model (m : Json) : Except Abort String :=
  match m with
  | .str s =>
    if (alistGet MODEL_ENDPOINTS s).isSome then .ok s
    else .error (.http 400 (invalidModelDetail m))
  | .arr _ => .error (.exn (.typeError "unhashable type: \x27list\x27"))
  | .obj _ => .error (.exn (.typeError "unhashable type: \x27dict\x27"))
  | _ => .error (.http 400 (invalidModelDetail m))

/-- File handling, lines 229–233: `if file and file.filename:` — the file
is stored only when present with a truthy (non-`None`, non-empty) name. -/
def file_phase (env : ChatEnv) (st : BridgeState) (req : WireRequest) :
    List FileInfo × BridgeState :=
  match req.form.file with
  | none => ([], st)
  | some f =>
    if pyStrOr f.filename "" == "" then ([], st)
    else
      let r := save_uploaded_file env.file_uuid st f
      ([r.1], r.2)

/-- What the handler responds with. -/
inductive HandlerOutcome where
  | completion (body : Json)
  | streaming (frames : List String)
  | httpError (status : Nat) (detail : String)
  | unhandled (e : PyError)
  deriving Repr

/-- The HTTP status of a deliberate `HTTPException`, if the outcome is one. -/
def statusOf : HandlerOutcome → Option Nat
  | .httpError s _ => some s
  | _ => none

/-- A handler run: its outcome, the final state, and every backend
request it performed. -/
structure ChatResult where
  outcome : HandlerOutcome
  state : BridgeState
  calls : List BackendCall

/-- `chat_completions`, lines 193–273: parse, validate the model, store
an attached file, transcode, call the backend (a `RequestException`
becomes a 502), then synthesize the streaming or whole response. -/
def chat_completions (env : ChatEnv) (st : BridgeState) (req : WireRequest) : ChatResult :=
  match parse_chat_request req with
  | .error (.http s d) => ⟨.httpError s d, st, []⟩
  | .error (.exn e) => ⟨.unhandled e, st, []⟩
  | .ok p =>
    match validate_model p.modelV with
    | .error (.http s d) => ⟨.httpError s d, st, []⟩
    | .error (.exn e) => ⟨.unhandled e, st, []⟩
    | .ok modelKey =>
      let fp := file_phase env st req
      let endpoint := (alistGet MODEL_ENDPOINTS modelKey).getD ""
      let prompt := convert_messages_to_prompt p.msgs
      let call := postech_request endpoint prompt fp.1
      match call_postech_api env.transport endpoint prompt fp.1 with
      | .error (.requestException m) =>
        ⟨.httpError 502 ("POSTECH API error: " ++ m), fp.2, [call]⟩
      | .error e => ⟨.unhandled e, fp.2, [call]⟩
      | .ok reply =>
        let completion_id := "chatcmpl-" ++ pySlice env.completion_uuid_hex 12
        if p.is_stream then
          ⟨.streaming (generate_stream_response reply modelKey completion_id env.now), fp.2, [call]⟩
        else
          ⟨.completion (mkCompletion completion_id env.now modelKey reply), fp.2, [call]⟩

/-- Lower-case hex digits, the alphabet of Python's `uuid4().hex`. -/
def isHexLower (c : Char) : Bool :=
  ('0' ≤ c && c ≤ '9') || ('a' ≤ c && c ≤ 'f')

/-- A concrete environment for witnesses: the backend always answers
`200 {"replies": "ok"}`, the uuids and the clock are fixed. -/
def envW : ChatEnv :=
  ⟨fun _ _ => .resp 200 (.obj [("replies", .str "ok")]),
   "file-uuid-1", "0123456789abcdef0123456789abcdef", 111⟩

/-! Shared helper lemmas, then the claims. -/

theorem foldl_push_eq_map {α β : Type} (f : α → β) (l : List α) (acc : List β) :
    l.foldl (fun a x => a ++ [f x]) acc = acc ++ l.map f := by
  induction l generalizing acc with
  | nil => simp
  | cons x xs ih => simp [List.foldl_cons, ih]

/-- C4: `convert_messages_to_prompt` is a deterministic, order-preserving
pure function: it equals, for every message list, the per-message line
`"<ROLE_UPPERCASED>: <content>"` joined in input order with a single
newline, and the empty list yields the empty string. -/
theorem transcoder_matches_spec (msgs : List Message) :
    convert_messages_to_prompt msgs = specToPrompt msgs ∧
    convert_messages_to_prompt [] = "" := by
  constructor
  · unfold convert_messages_to_prompt specToPrompt
    rw [foldl_push_eq_map]
    simp
  · rfl

/-- C1 (counterexample): the claim says the Backend Client returns the
value of the `reply` field of a 2xx JSON body.  On the body
`{"reply": "hi"}` the code returns `""`, not `"hi"`: the code reads the
`replies` field (line 125), not `reply`. -/
theorem reply_field_counterexample :
    call_postech_api (fun _ _ => .resp 200 (.obj [("reply", Json.str "hi")])) "a1/gpt" "p" [] =
      .ok (.str "") ∧ Json.str "" ≠ Json.str "hi" := by
  refine ⟨rfl, ?_⟩
  intro h
  injection h with h2
  exact absurd h2 (by decide)

/-- C1 (amended): after a backend response that `raise_for_status`
accepts (status < 400, in particular any 2xx) whose body parses to a JSON
object, `call_postech_api` returns the value of the `replies` field of
that object; when the field is absent it returns the empty string rather
than raising. -/
theorem replies_field_extraction (transport : Transport) (endpoint prompt : String)
    (files : List FileInfo) (status : Nat) (kvs : List (String × Json))
    (h1 : transport (POSTECH_BASE_URL ++ "/" ++ endpoint) ⟨prompt, false, files⟩ =
      .resp status (.obj kvs))
    (h2 : status < 400) :
    call_postech_api transport endpoint prompt files =
      .ok ((alistGet kvs "replies").getD (.str "")) ∧
    (alistGet kvs "replies" = none →
      call_postech_api transport endpoint prompt files = .ok (.str "")) := by
  have hmain : call_postech_api transport endpoint prompt files =
      .ok ((alistGet kvs "replies").getD (.str "")) := by
    unfold call_postech_api postech_request
    simp only [h1]
    rw [if_neg (by omega)]
  refine ⟨hmain, fun habs => ?_⟩
  rw [hmain, habs]
  rfl

/-- C1 witness: a concrete 200 response `{"replies": "ok"}` yields `"ok"`,
and one with the field absent yields `""`. -/
theorem replies_field_extraction_witness :
    call_postech_api (fun _ _ => .resp 200 (.obj [("replies", Json.str "ok")])) "a1/gpt" "p" [] =
      .ok (.str "ok") ∧
    call_postech_api (fun _ _ => .resp 200 (.obj [("other", Json.str "x")])) "a1/gpt" "p" [] =
      .ok (.str "") :=
  ⟨(replies_field_extraction (fun _ _ => .resp 200 (.obj [("replies", Json.str "ok")]))
      "a1/gpt" "p" [] 200 [("replies", Json.str "ok")] rfl (by decide)).1,
   (replies_field_extraction (fun _ _ => .resp 200 (.obj [("other", Json.str "x")]))
      "a1/gpt" "p" [] 200 [("other", Json.str "x")] rfl (by decide)).2 rfl⟩

/-- C5: for every reply string, model and completion id, the synthetic
stream is exactly three frames — a single-choice chunk carrying the whole
reply as an assistant-role content delta with null finish reason, a chunk
with an empty delta and finish reason "stop", and the literal
`data: [DONE]\n\n` — the two JSON chunks sharing the id and the created
timestamp captured once, and the content deltas concatenating to the
reply. -/
theorem stream_three_frames (r model cid : String) (t : Int) :
    (generate_stream_response (.str r) model cid t).length = 3 ∧
    generate_stream_response (.str r) model cid t =
      ["data: " ++ pyJsonDumps (mkContentChunk cid t model (.str r)) ++ "\n\n",
       "data: " ++ pyJsonDumps (mkFinishChunk cid t model) ++ "\n\n",
       "data: [DONE]\n\n"] ∧
    (jchoices (mkContentChunk cid t model (.str r))).length = 1 ∧
    choiceDeltaRole (mkContentChunk cid t model (.str r)) = some (.str "assistant") ∧
    chunkDeltaContent (mkContentChunk cid t model (.str r)) = r ∧
    choiceFinishReason (mkContentChunk cid t model (.str r)) = some .null ∧
    (jchoices (mkFinishChunk cid t model)).length = 1 ∧
    choiceDelta (mkFinishChunk cid t model) = some (.obj []) ∧
    choiceFinishReason (mkFinishChunk cid t model) = some (.str "stop") ∧
    jfield (mkContentChunk cid t model (.str r)) "id" = some (.str cid) ∧
    jfield (mkFinishChunk cid t model) "id" = some (.str cid) ∧
    jfield (mkContentChunk cid t model (.str r)) "created" = some (.num (toString t)) ∧
    jfield (mkFinishChunk cid t model) "created" = some (.num (toString t)) ∧
    chunkDeltaContent (mkContentChunk cid t model (.str r)) ++
      chunkDeltaContent (mkFinishChunk cid t model) = r := by
  repeat' apply And.intro
  all_goals first
  | rfl
  | (show r ++ "" = r
     exact String.append_empty r)

/-- C6: every backend request any run of the handler performs has
`stream: false` in its payload, whatever the caller's stream flag:
synthetic streaming is never passed through to the backend. -/
theorem backend_call_never_streams (env : ChatEnv) (st : BridgeState) (req : WireRequest) :
    ((chat_completions env st req).calls.all (fun c => c.payload.stream == false)) = true := by
  unfold chat_completions
  cases hp : parse_chat_request req with
  | error a => cases a <;> simp
  | ok p =>
    cases hv : validate_model p.modelV with
    | error a => cases a <;> simp [hv]
    | ok mk =>
      cases hc : call_postech_api env.transport ((alistGet MODEL_ENDPOINTS mk).getD "")
          (convert_messages_to_prompt p.msgs) (file_phase env st req).1 with
      | error e => cases e <;> simp [hv, hc, postech_request]
      | ok reply =>
        by_cases hs : p.is_stream = true <;> simp [hv, hc, hs, postech_request]

/-- C8: uploading a file and then fetching the returned id serves the
original bytes under the original filename; fetching any id absent from
the registry is a 404 (`get_file` is a pure read of the state, so the
registry is untouched). -/
theorem file_roundtrip_and_404 (file_uuid : String) (st : BridgeState) (f : UploadedFile) :
    get_file (upload_file file_uuid st f).2 (upload_file file_uuid st f).1.id =
      .ok ⟨TMP_DIR ++ "/" ++ file_uuid, f.filename⟩ ∧
    served_bytes (upload_file file_uuid st f).2 ⟨TMP_DIR ++ "/" ++ file_uuid, f.filename⟩ =
      some f.content ∧
    (∀ fid, alistGet st.stored_files fid = none →
      get_file st fid = .error (404, "File not found")) := by
  refine ⟨?_, ?_, ?_⟩
  · simp [upload_file, get_file, alistGet, List.find?]
  · simp [upload_file, served_bytes, alistGet, List.find?]
  · intro fid h
    unfold get_file
    rw [h]

/-- C8 witness: a concrete round trip through an empty registry, and a
404 for an id the registry does not hold. -/
theorem file_roundtrip_and_404_witness :
    get_file (upload_file "u1" ⟨[], []⟩ ⟨some "notes.txt", [1, 2, 3]⟩).2
        (upload_file "u1" ⟨[], []⟩ ⟨some "notes.txt", [1, 2, 3]⟩).1.id =
      .ok ⟨TMP_DIR ++ "/" ++ "u1", some "notes.txt"⟩ ∧
    get_file ⟨[], []⟩ "nosuch" = .error (404, "File not found") :=
  ⟨(file_roundtrip_and_404 "u1" ⟨[], []⟩ ⟨some "notes.txt", [1, 2, 3]⟩).1,
   (file_roundtrip_and_404 "u1" ⟨[], []⟩ ⟨some "notes.txt", [1, 2, 3]⟩).2.2 "nosuch" rfl⟩

/-- Inversion of the multipart parsing phase: a successful parse fixes
the stream flag to `isStreamForm` of the `stream` form field. -/
theorem parse_multipart_inv (req : WireRequest) (p : ParsedChat)
    (hmp : isMultipartCT req.contentType = true)
    (hp : parse_chat_request req = .ok p) :
    p.is_stream = isStreamForm req.form.stream := by
  unfold parse_chat_request at hp
  rw [if_pos hmp] at hp
  split at hp
  · simp at hp
  · split at hp
    · simp at hp
    · split at hp
      · simp at hp
      · simp at hp
      · simp at hp
      · simp only [Except.ok.injEq] at hp
        rw [← hp]

/-- A non-key model value that is hashable (string, number, boolean or
null) makes `validate_model` raise the 400 `HTTPException` with the
option-listing detail. -/
theorem validate_model_not_in_table (m : Json)
    (hH : pyHashable m = true) (h2 : modelInTable m = false) :
    validate_model m = .error (.http 400 (invalidModelDetail m)) := by
  cases m with
  | str s =>
    have h2x : (alistGet MODEL_ENDPOINTS s).isSome = false := by
      simpa [modelInTable] using h2
    simp [validate_model, h2x]
  | null => rfl
  | bool b => rfl
  | num lit => rfl
  | arr xs => simp [pyHashable] at hH
  | obj kvs => simp [pyHashable] at hH

/-- An unhashable model value (list or dict) makes the membership test of
`validate_model` raise an uncaught `TypeError`. -/
theorem validate_model_unhashable (m : Json) (hH : pyHashable m = false) :
    ∃ t, validate_model m = .error (.exn (.typeError t)) := by
  cases m with
  | arr xs => exact ⟨"unhashable type: \x27list\x27", rfl⟩
  | obj kvs => exact ⟨"unhashable type: \x27dict\x27", rfl⟩
  | null => simp [pyHashable] at hH
  | bool b => simp [pyHashable] at hH
  | num lit => simp [pyHashable] at hH
  | str s => simp [pyHashable] at hH

/-- C3 (counterexample): the claim says every request whose resolved
model is not a key of `MODEL_ENDPOINTS` gets a 400 listing the options.
The JSON body `{"model": [], "messages": []}` resolves the model to a
list, which is not a key — but `model not in MODEL_ENDPOINTS` raises
`TypeError: unhashable type` (an uncaught 500), no `HTTPException` at
all.  The backend is still never called. -/
theorem unhashable_model_counterexample :
    (chat_completions envW ⟨[], []⟩
        ⟨"application/json", ⟨none, none, none, none⟩,
         .obj [("model", .arr []), ("messages", .arr [])]⟩).outcome =
      .unhandled (.typeError "unhashable type: \x27list\x27") ∧
    statusOf (chat_completions envW ⟨[], []⟩
        ⟨"application/json", ⟨none, none, none, none⟩,
         .obj [("model", .arr []), ("messages", .arr [])]⟩).outcome = none ∧
    (chat_completions envW ⟨[], []⟩
        ⟨"application/json", ⟨none, none, none, none⟩,
         .obj [("model", .arr []), ("messages", .arr [])]⟩).calls = [] :=
  ⟨rfl, rfl, rfl⟩

/-- C3 (amended): when a request parses and its resolved model value is
not a key of `MODEL_ENDPOINTS`: a string model is answered 400 with the
option-listing detail, state untouched and no backend call; any hashable
model value is answered 400 with no backend call; an unhashable model
value (JSON list or dict) raises an uncaught `TypeError` (rendered by
FastAPI as a 500), also without calling the backend. -/
theorem unknown_model_rejected (env : ChatEnv) (st : BridgeState) (req : WireRequest)
    (p : ParsedChat)
    (h1 : parse_chat_request req = .ok p)
    (h2 : modelInTable p.modelV = false) :
    (∀ s, p.modelV = .str s →
      chat_completions env st req =
        ⟨.httpError 400 (invalidModelDetail p.modelV), st, []⟩) ∧
    (pyHashable p.modelV = true →
      statusOf (chat_completions env st req).outcome = some 400 ∧
      (chat_completions env st req).calls = []) ∧
    (pyHashable p.modelV = false →
      (∃ t, (chat_completions env st req).outcome = .unhandled (.typeError t)) ∧
      (chat_completions env st req).calls = []) := by
  refine ⟨?_, ?_, ?_⟩
  · intro s hM
    have hH : pyHashable p.modelV = true := by rw [hM]; rfl
    have hv := validate_model_not_in_table p.modelV hH h2
    unfold chat_completions
    simp only [h1, hv]
  · intro hH
    have hv := validate_model_not_in_table p.modelV hH h2
    unfold chat_completions
    simp only [h1, hv]
    exact ⟨rfl, trivial⟩
  · intro hH
    obtain ⟨t, hv⟩ := validate_model_unhashable p.modelV hH
    unfold chat_completions
    simp only [h1, hv]
    exact ⟨⟨t, rfl⟩, trivial⟩

/-- C3 witness: `model = "bogus"` in a JSON body is answered 400 with the
option-listing detail and no backend call; `model = {}` raises the
uncaught `TypeError`. -/
theorem unknown_model_rejected_witness :
    chat_completions envW ⟨[], []⟩ ⟨"application/json", ⟨none, none, none, none⟩,
        .obj [("model", .str "bogus"), ("messages", .arr [])]⟩ =
      ⟨.httpError 400 (invalidModelDetail (.str "bogus")), ⟨[], []⟩, []⟩ ∧
    statusOf (chat_completions envW ⟨[], []⟩ ⟨"application/json", ⟨none, none, none, none⟩,
        .obj [("model", .str "bogus"), ("messages", .arr [])]⟩).outcome = some 400 ∧
    (∃ t, (chat_completions envW ⟨[], []⟩ ⟨"application/json", ⟨none, none, none, none⟩,
        .obj [("model", .obj []), ("messages", .arr [])]⟩).outcome =
      .unhandled (.typeError t)) :=
  ⟨(unknown_model_rejected envW ⟨[], []⟩
      ⟨"application/json", ⟨none, none, none, none⟩,
       .obj [("model", .str "bogus"), ("messages", .arr [])]⟩
      ⟨[], .str "bogus", false⟩ rfl rfl).1 "bogus" rfl,
   ((unknown_model_rejected envW ⟨[], []⟩
      ⟨"application/json", ⟨none, none, none, none⟩,
       .obj [("model", .str "bogus"), ("messages", .arr [])]⟩
      ⟨[], .str "bogus", false⟩ rfl rfl).2.1 rfl).1,
   ((unknown_model_rejected envW ⟨[], []⟩
      ⟨"application/json", ⟨none, none, none, none⟩,
       .obj [("model", .obj []), ("messages", .arr [])]⟩
      ⟨[], .obj [], false⟩ rfl rfl).2.2 rfl).1⟩

/-- C2 (counterexample): the multipart `messages` value
`[{"role": "user"}]` is well-formed JSON but not a list of valid
role/content pairs; the claim demands a 400, yet the handler raises an
uncaught pydantic `ValidationError` (no `HTTPException` at all — FastAPI
turns it into a 500 server error). -/
theorem multipart_validation_counterexample :
    (chat_completions envW ⟨[], []⟩
        ⟨"multipart/form-data; boundary=x",
         ⟨some "postech-gpt", some "[\x7b\"role\": \"user\"\x7d]", none, none⟩, .null⟩).outcome =
      .unhandled (.validationError "validation error for Message") ∧
    statusOf (chat_completions envW ⟨[], []⟩
        ⟨"multipart/form-data; boundary=x",
         ⟨some "postech-gpt", some "[\x7b\"role\": \"user\"\x7d]", none, none⟩, .null⟩).outcome =
      none :=
  ⟨rfl, rfl⟩

/-- C2 (amended): for multipart requests, a missing (or empty) `messages`
field and any `messages` value whose parse raises `JSONDecodeError` or
`TypeError` yield a 400 carrying the parse failure reason, and the
backend is never called; but entries that are mappings failing pydantic
validation (e.g. a missing `content`) escape as an uncaught
`ValidationError` (a 500), still without calling the backend. -/
theorem multipart_messages_errors (env : ChatEnv) (st : BridgeState) (req : WireRequest)
    (hmp : isMultipartCT req.contentType = true) :
    ((req.form.messages = none ∨ req.form.messages = some "") →
      chat_completions env st req = ⟨.httpError 400 "messages field is required", st, []⟩) ∧
    (∀ s m, req.form.messages = some s → ¬s = "" →
      (parse_form_messages s = .error (.jsonDecodeError m) ∨
        parse_form_messages s = .error (.typeError m)) →
      chat_completions env st req =
        ⟨.httpError 400 ("Invalid messages format: " ++ m), st, []⟩) ∧
    (∀ s m, req.form.messages = some s → ¬s = "" →
      parse_form_messages s = .error (.validationError m) →
      chat_completions env st req = ⟨.unhandled (.validationError m), st, []⟩) := by
  refine ⟨?_, ?_, ?_⟩
  · intro h
    have hp : parse_chat_request req = .error (.http 400 "messages field is required") := by
      unfold parse_chat_request
      rcases h with h | h <;> simp [hmp, h]
    unfold chat_completions
    simp only [hp]
  · intro s m hs hne hdisj
    have hp : parse_chat_request req =
        .error (.http 400 ("Invalid messages format: " ++ m)) := by
      unfold parse_chat_request
      rcases hdisj with h | h <;> simp [hmp, hs, hne, h]
    unfold chat_completions
    simp only [hp]
  · intro s m hs hne hval
    have hp : parse_chat_request req = .error (.exn (.validationError m)) := by
      unfold parse_chat_request
      simp [hmp, hs, hne, hval]
    unfold chat_completions
    simp only [hp]

/-- C2 witness: a multipart request without a `messages` field is a 400
"messages field is required" with no backend call, and `messages` that is
not JSON is a 400 carrying the decode error. -/
theorem multipart_messages_errors_witness :
    chat_completions envW ⟨[], []⟩
        ⟨"multipart/form-data; boundary=x", ⟨none, none, none, none⟩, .null⟩ =
      ⟨.httpError 400 "messages field is required", ⟨[], []⟩, []⟩ ∧
    chat_completions envW ⟨[], []⟩
        ⟨"multipart/form-data; boundary=x", ⟨none, some "not json", none, none⟩, .null⟩ =
      ⟨.httpError 400 ("Invalid messages format: " ++ "Expecting value"), ⟨[], []⟩, []⟩ :=
  ⟨(multipart_messages_errors envW ⟨[], []⟩
      ⟨"multipart/form-data; boundary=x", ⟨none, none, none, none⟩, .null⟩ rfl).1 (Or.inl rfl),
   (multipart_messages_errors envW ⟨[], []⟩
      ⟨"multipart/form-data; boundary=x", ⟨none, some "not json", none, none⟩, .null⟩ rfl).2.1
     "not json" "Expecting value" rfl (by decide) (Or.inl rfl)⟩

/-- C9 (counterexample): the claim says a JSON-body request with absent
`messages` proceeds while an unknown `model` is rejected with a client
error.  At `{"model": []}` the messages field is absent and the model is
not a key, yet there is no client error: the membership test raises an
uncaught `TypeError: unhashable type` — FastAPI renders a 500 server
error.  The backend is still never called. -/
theorem json_unknown_model_not_client_error :
    (chat_completions envW ⟨[], []⟩
        ⟨"application/json", ⟨none, none, none, none⟩, .obj [("model", .arr [])]⟩).outcome =
      .unhandled (.typeError "unhashable type: \x27list\x27") ∧
    statusOf (chat_completions envW ⟨[], []⟩
        ⟨"application/json", ⟨none, none, none, none⟩,
         .obj [("model", .arr [])]⟩).outcome = none ∧
    (chat_completions envW ⟨[], []⟩
        ⟨"application/json", ⟨none, none, none, none⟩,
         .obj [("model", .arr [])]⟩).calls = [] :=
  ⟨rfl, rfl, rfl⟩

/-- C9 (amended): a JSON-body request whose `messages` field is absent or
the empty list is not rejected: the handler proceeds with the empty
message list (hence an empty prompt) and the backend is still called when
the model validates.  An unknown hashable model value is rejected with a
400 client error and no backend call; an unhashable model value (JSON
list or dict) instead raises an uncaught `TypeError` (a 500), also with
no backend call. -/
theorem empty_messages_accepted (env : ChatEnv) (st : BridgeState) (req : WireRequest)
    (kvs : List (String × Json))
    (hmp : isMultipartCT req.contentType = false)
    (hbody : req.body = .obj kvs)
    (hmsgs : alistGet kvs "messages" = none ∨ alistGet kvs "messages" = some (.arr []))
    (hfile : req.form.file = none) :
    (∀ mk, validate_model ((alistGet kvs "model").getD (.str DEFAULT_MODEL)) = .ok mk →
      (chat_completions env st req).calls =
        [postech_request ((alistGet MODEL_ENDPOINTS mk).getD "") "" []]) ∧
    (∀ d, validate_model ((alistGet kvs "model").getD (.str DEFAULT_MODEL)) =
        .error (.http 400 d) →
      chat_completions env st req = ⟨.httpError 400 d, st, []⟩) ∧
    (pyHashable ((alistGet kvs "model").getD (.str DEFAULT_MODEL)) = false →
      (∃ t, (chat_completions env st req).outcome = .unhandled (.typeError t)) ∧
      (chat_completions env st req).calls = []) := by
  have hp : parse_chat_request req =
      .ok ⟨[], (alistGet kvs "model").getD (.str DEFAULT_MODEL),
           pyTruthy ((alistGet kvs "stream").getD (.bool false))⟩ := by
    unfold parse_chat_request
    rcases hmsgs with h | h <;> simp only [hmp, hbody, h, pyIterate, Bool.false_eq_true,
      if_false, Option.getD_some, Option.getD_none] <;> rfl
  have hfp : file_phase env st req = ([], st) := by
    unfold file_phase
    rw [hfile]
  refine ⟨?_, ?_, ?_⟩
  · intro mk hv
    unfold chat_completions
    simp only [hp, hv, hfp]
    cases hc : call_postech_api env.transport ((alistGet MODEL_ENDPOINTS mk).getD "")
        (convert_messages_to_prompt []) [] with
    | error e => cases e <;> simp only [hc] <;> rfl
    | ok reply =>
      simp only [hc, apply_ite ChatResult.calls, ite_self]
      rfl
  · intro d hv
    unfold chat_completions
    simp only [hp, hv]
  · intro hH
    obtain ⟨t, hv⟩ := validate_model_unhashable _ hH
    unfold chat_completions
    simp only [hp, hv]
    exact ⟨⟨t, rfl⟩, trivial⟩

/-- C9 witness: the empty JSON body `{}` defaults the model and reaches
the backend with an empty prompt; `{"model": "nope", "messages": []}` is
a 400 with no call; `{"model": [null], "messages": []}` raises the
uncaught `TypeError`. -/
theorem empty_messages_accepted_witness :
    (chat_completions envW ⟨[], []⟩
        ⟨"application/json", ⟨none, none, none, none⟩, .obj []⟩).calls =
      [postech_request "a1/gpt" "" []] ∧
    chat_completions envW ⟨[], []⟩
        ⟨"application/json", ⟨none, none, none, none⟩,
         .obj [("model", .str "nope"), ("messages", .arr [])]⟩ =
      ⟨.httpError 400 (invalidModelDetail (.str "nope")), ⟨[], []⟩, []⟩ ∧
    (∃ t, (chat_completions envW ⟨[], []⟩
        ⟨"application/json", ⟨none, none, none, none⟩,
         .obj [("model", .arr [.null]), ("messages", .arr [])]⟩).outcome =
      .unhandled (.typeError t)) :=
  ⟨(empty_messages_accepted envW ⟨[], []⟩
      ⟨"application/json", ⟨none, none, none, none⟩, .obj []⟩ [] rfl rfl (Or.inl rfl) rfl).1
      "postech-gpt" rfl,
   (empty_messages_accepted envW ⟨[], []⟩
      ⟨"application/json", ⟨none, none, none, none⟩,
       .obj [("model", .str "nope"), ("messages", .arr [])]⟩
      [("model", .str "nope"), ("messages", .arr [])] rfl rfl (Or.inr rfl) rfl).2.1
      (invalidModelDetail (.str "nope")) rfl,
   ((empty_messages_accepted envW ⟨[], []⟩
      ⟨"application/json", ⟨none, none, none, none⟩,
       .obj [("model", .arr [.null]), ("messages", .arr [])]⟩
      [("model", .arr [.null]), ("messages", .arr [])] rfl rfl (Or.inr rfl) rfl).2.2 rfl).1⟩

/-- C10: a multipart request that reaches response synthesis is streamed
iff the `stream` form field is present and equals `"true"` after
lowercasing; absence, the empty string, or any other value yields the
single completion object. -/
theorem stream_flag_semantics (env : ChatEnv) (st : BridgeState) (req : WireRequest)
    (p : ParsedChat) (mk : String) (reply : Json)
    (hmp : isMultipartCT req.contentType = true)
    (hp : parse_chat_request req = .ok p)
    (hv : validate_model p.modelV = .ok mk)
    (hb : call_postech_api env.transport ((alistGet MODEL_ENDPOINTS mk).getD "")
        (convert_messages_to_prompt p.msgs) (file_phase env st req).1 = .ok reply) :
    p.is_stream = isStreamForm req.form.stream ∧
    (isStreamForm req.form.stream = true ↔
      ∃ s, req.form.stream = some s ∧ pyLower s = "true") ∧
    (chat_completions env st req).outcome =
      (if isStreamForm req.form.stream then
        HandlerOutcome.streaming (generate_stream_response reply mk
          ("chatcmpl-" ++ pySlice env.completion_uuid_hex 12) env.now)
      else
        HandlerOutcome.completion (mkCompletion
          ("chatcmpl-" ++ pySlice env.completion_uuid_hex 12) env.now mk reply)) := by
  have hA : p.is_stream = isStreamForm req.form.stream := parse_multipart_inv req p hmp hp
  refine ⟨hA, ?_, ?_⟩
  · cases hs : req.form.stream with
    | none => simp [isStreamForm]
    | some t =>
      unfold isStreamForm
      by_cases hte : (t == "") = true
      · have ht : t = "" := by simpa using hte
        subst ht
        constructor
        · intro h; simp at h
        · rintro ⟨s, hs2, hlow⟩
          obtain rfl : s = "" := by injection hs2 with h; exact h.symm
          exact absurd hlow (by decide)
      · simp only [hte, Bool.not_false]
        constructor
        · intro h
          refine ⟨t, rfl, ?_⟩
          have := (Bool.and_eq_true _ _).mp h
          simpa using this.2
        · rintro ⟨s, hs2, hlow⟩
          obtain rfl : s = t := by injection hs2 with h; exact h.symm
          simp [hte, hlow]
  · unfold chat_completions
    simp only [hp, hv, hb, hA]
    by_cases hq : isStreamForm req.form.stream = true <;> simp [hq]

/-- C10 witness: `stream = "TRUE"` streams; the synthesized frames use
the fixed environment's uuid and clock. -/
theorem stream_flag_semantics_witness :
    (chat_completions envW ⟨[], []⟩
        ⟨"multipart/form-data; boundary=x", ⟨none, some "[]", some "TRUE", none⟩, .null⟩).outcome =
      .streaming (generate_stream_response (.str "ok") "postech-gpt"
        ("chatcmpl-" ++ pySlice "0123456789abcdef0123456789abcdef" 12) 111) :=
  (stream_flag_semantics envW ⟨[], []⟩
    ⟨"multipart/form-data; boundary=x", ⟨none, some "[]", some "TRUE", none⟩, .null⟩
    ⟨[], .str "postech-gpt", true⟩ "postech-gpt" (.str "ok") rfl rfl rfl rfl).2.2

/-- C7: a valid non-streaming request whose model validates and whose
backend call succeeds with reply `r` is answered with the single
completion object: one choice whose message content is `r` verbatim with
assistant role and finish reason "stop", object tag "chat.completion",
and an id `"chatcmpl-"` followed by the first 12 characters of the drawn
`uuid4().hex` — 12 lower-case hex characters. -/
theorem valid_request_completion (env : ChatEnv) (st : BridgeState) (req : WireRequest)
    (p : ParsedChat) (mk : String) (r : String)
    (hp : parse_chat_request req = .ok p)
    (hv : validate_model p.modelV = .ok mk)
    (hs : p.is_stream = false)
    (hb : call_postech_api env.transport ((alistGet MODEL_ENDPOINTS mk).getD "")
        (convert_messages_to_prompt p.msgs) (file_phase env st req).1 = .ok (.str r))
    (hhex : env.completion_uuid_hex.length = 32) :
    (chat_completions env st req).outcome =
      .completion (mkCompletion ("chatcmpl-" ++ pySlice env.completion_uuid_hex 12)
        env.now mk (.str r)) ∧
    jfield (mkCompletion ("chatcmpl-" ++ pySlice env.completion_uuid_hex 12) env.now mk (.str r))
        "object" = some (.str "chat.completion") ∧
    (jchoices (mkCompletion ("chatcmpl-" ++ pySlice env.completion_uuid_hex 12)
        env.now mk (.str r))).length = 1 ∧
    choiceMessageField (mkCompletion ("chatcmpl-" ++ pySlice env.completion_uuid_hex 12)
        env.now mk (.str r)) "content" = some (.str r) ∧
    choiceMessageField (mkCompletion ("chatcmpl-" ++ pySlice env.completion_uuid_hex 12)
        env.now mk (.str r)) "role" = some (.str "assistant") ∧
    choiceMessageFinish (mkCompletion ("chatcmpl-" ++ pySlice env.completion_uuid_hex 12)
        env.now mk (.str r)) = some (.str "stop") ∧
    jfield (mkCompletion ("chatcmpl-" ++ pySlice env.completion_uuid_hex 12) env.now mk (.str r))
        "id" = some (.str ("chatcmpl-" ++ pySlice env.completion_uuid_hex 12)) ∧
    (pySlice env.completion_uuid_hex 12).length = 12 ∧
    (env.completion_uuid_hex.data.all isHexLower = true →
      (pySlice env.completion_uuid_hex 12).data.all isHexLower = true) := by
  refine ⟨?_, rfl, rfl, rfl, rfl, rfl, rfl, ?_, ?_⟩
  · unfold chat_completions
    simp only [hp, hv, hb, hs, Bool.false_eq_true, if_false]
  · show (env.completion_uuid_hex.data.take 12).length = 12
    rw [List.length_take]
    have h32 : env.completion_uuid_hex.data.length = 32 := hhex
    omega
  · intro hall
    show (env.completion_uuid_hex.data.take 12).all isHexLower = true
    rw [List.all_eq_true] at hall ⊢
    intro c hc
    exact hall c (List.mem_of_mem_take hc)

/-- C7 witness: a concrete JSON request with one user message, answered
from the fixed environment's backend with reply "ok". -/
theorem valid_request_completion_witness :
    (chat_completions envW ⟨[], []⟩
        ⟨"application/json", ⟨none, none, none, none⟩,
         .obj [("messages", .arr [.obj [("role", .str "user"),
           ("content", .str "hi")]])]⟩).outcome =
      .completion (mkCompletion ("chatcmpl-" ++ pySlice "0123456789abcdef0123456789abcdef" 12)
        111 "postech-gpt" (.str "ok")) ∧
    (pySlice ("0123456789abcdef0123456789abcdef" : String) 12).length = 12 :=
  ⟨(valid_request_completion envW ⟨[], []⟩
      ⟨"application/json", ⟨none, none, none, none⟩,
       .obj [("messages", .arr [.obj [("role", .str "user"), ("content", .str "hi")]])]⟩
      ⟨[⟨"user", "hi"⟩], .str "postech-gpt", false⟩ "postech-gpt" "ok"
      rfl rfl rfl rfl rfl).1,
   (valid_request_completion envW ⟨[], []⟩
      ⟨"application/json", ⟨none, none, none, none⟩,
       .obj [("messages", .arr [.obj [("role", .str "user"), ("content", .str "hi")]])]⟩
      ⟨[⟨"user", "hi"⟩], .str "postech-gpt", false⟩ "postech-gpt" "ok"
      rfl rfl rfl rfl rfl).2.2.2.2.2.2.2.1⟩

end Bridge
